import Mathlib

/-
  Verification of the federation layer (CompositeDataProvider) of the
  ontodia repository, embedded shallowly from
  src/ontodia/data/composite/composite.ts.

  Asynchronous backend calls are embedded as pure outcomes of type
  Except BackendError r: a resolved promise is .ok, a rejected promise is
  .error.  Promise timing for the parallel (fetchAll) path is modelled
  separately via an explicit settle-order argument (see settleAll below).
-/

namespace Ontodia

/-- Modelled from the spec: a BackendError is a network, parse, or
validation failure inside one backend (the data model file of the
repository is not under src, only composite.ts is). -/
structure BackendError where
  message : String
deriving DecidableEq, Repr

/-- Modelled from the spec: minimal ClassModel record (id plus display
payload); the children of the class tree are not needed by any claim. -/
structure ClassModel where
  id : String
  label : String
  count : Nat
deriving DecidableEq, Repr

/-- Modelled from the spec: minimal PropertyModel record. -/
structure PropertyModel where
  id : String
  label : String
deriving DecidableEq, Repr

/-- Modelled from the spec: minimal LinkType record. -/
structure LinkType where
  id : String
  label : String
  count : Nat
deriving DecidableEq, Repr

/-- Modelled from the spec: minimal ElementModel record. -/
structure ElementModel where
  id : String
  label : String
  types : List String
deriving DecidableEq, Repr

/-- Modelled from the spec: a link triple (link type, source, target). -/
structure LinkModel where
  linkTypeId : String
  sourceId : String
  targetId : String
deriving DecidableEq, Repr

/-- Modelled from the spec: per-link-type statistics for one element. -/
structure LinkCount where
  id : String
  inCount : Nat
  outCount : Nat
deriving DecidableEq, Repr

/-- A dictionary-shaped result (id to record), embedded as an association
list; lookup takes the first entry for a key. -/
abbrev Dict (α : Type) : Type := List (String × α)

/-- Lookup in a dictionary: the first entry whose key matches. -/
def dictGet {α : Type} : Dict α → String → Option α
  | [], _ => none
  | (k, v) :: rest, q => if q = k then some v else dictGet rest q

/-- Keys of a dictionary. -/
def dictKeys {α : Type} (d : Dict α) : List String :=
  d.map Prod.fst

/-- Modelled from the spec: opaque parameters of the filter operation
(composite.ts passes them through without inspection). -/
structure FilterParams where
  text : String
  refElementId : Option String
deriving DecidableEq, Repr

/-- Direction of a link traversal in linkElements. -/
inductive LinkDirection where
  | inward
  | outward
deriving DecidableEq, Repr

/-- Modelled from the spec: parameters of the linkElements operation
(composite.ts passes them through without inspection). -/
structure LinkElementsParams where
  elementId : String
  linkId : String
  limit : Nat
  offset : Nat
  direction : Option LinkDirection
deriving DecidableEq, Repr

/-- Modelled from the spec: the Backend Capability Interface
(data/provider.ts is not under src).  Each asynchronous operation is
embedded as a pure outcome: .ok for a resolved promise, .error for a
rejected one. -/
structure DataProvider where
  classTree : Except BackendError (List ClassModel)
  classInfo : List String → Except BackendError (List ClassModel)
  propertyInfo : List String → Except BackendError (Dict PropertyModel)
  linkTypesInfo : List String → Except BackendError (List LinkType)
  linkTypes : Except BackendError (List LinkType)
  elementInfo : List String → Except BackendError (Dict ElementModel)
  linksInfo : List String → List String → Except BackendError (List LinkModel)
  linkTypesOf : String → Except BackendError (List LinkCount)
  linkElements : LinkElementsParams → Except BackendError (Dict ElementModel)
  filter : FilterParams → Except BackendError (Dict ElementModel)

/-- From composite.ts (DPDefinition): a named backend. -/
structure DPDefinition where
  name : String
  dataProvider : DataProvider

/-- From composite.ts (MergeMode): the two fan-out policies. -/
inductive MergeMode where
  | fetchAll
  | sequentialFetching
deriving DecidableEq, Repr

/-- From mergeUtils (CompositeResponse): one backend's tagged result;
response = none embeds the undefined payload of a failed call. -/
structure CompositeResponse (ρ : Type) where
  dataSourceName : String
  response : Option ρ
deriving DecidableEq, Repr

/-- Concatenation of the payloads of a list of tagged results in list
order; an absent payload contributes the empty list. -/
def concatPayloads {α : Type} (responses : List (CompositeResponse (List α))) : List α :=
  responses.foldl (fun acc r => acc ++ r.response.getD []) []

/-- Deduplication by a key function, keeping the first occurrence of each
key. -/
def dedupByKey {α κ : Type} [DecidableEq κ] (key : α → κ) : List α → List α
  | [] => []
  | x :: rest => x :: (dedupByKey key rest).filter (fun y => key y ≠ key x)

/-- Modelled from the spec: merge of dictionary-shaped results
(mergeUtils.ts is not under src) — conflicting keys across backends are
resolved first-registered-backend-wins; later values for the same key are
discarded. -/
def mergeDictionaries {α : Type} (responses : List (CompositeResponse (Dict α))) : Dict α :=
  dedupByKey Prod.fst (concatPayloads responses)

/-- Modelled from the spec: merge of list-shaped results — concatenated in
registry order, deduplicated by a key keeping the first occurrence. -/
def mergeListsBy {α κ : Type} [DecidableEq κ] (key : α → κ)
    (responses : List (CompositeResponse (List α))) : List α :=
  dedupByKey key (concatPayloads responses)

/-- Modelled from the spec: mergeClassTree (mergeUtils.ts is not under
src); class records merged by id, first occurrence kept. -/
def mergeClassTree (responses : List (CompositeResponse (List ClassModel))) : List ClassModel :=
  mergeListsBy ClassModel.id responses

/-- Modelled from the spec: mergeClassInfo (mergeUtils.ts is not under
src). -/
def mergeClassInfo (responses : List (CompositeResponse (List ClassModel))) : List ClassModel :=
  mergeListsBy ClassModel.id responses

/-- Modelled from the spec: mergePropertyInfo (mergeUtils.ts is not under
src). -/
def mergePropertyInfo (responses : List (CompositeResponse (Dict PropertyModel))) : Dict PropertyModel :=
  mergeDictionaries responses

/-- Modelled from the spec: mergeLinkTypesInfo (mergeUtils.ts is not under
src). -/
def mergeLinkTypesInfo (responses : List (CompositeResponse (List LinkType))) : List LinkType :=
  mergeListsBy LinkType.id responses

/-- Modelled from the spec: mergeLinkTypes (mergeUtils.ts is not under
src). -/
def mergeLinkTypes (responses : List (CompositeResponse (List LinkType))) : List LinkType :=
  mergeListsBy LinkType.id responses

/-- Modelled from the spec: mergeElementInfo (mergeUtils.ts is not under
src). -/
def mergeElementInfo (responses : List (CompositeResponse (Dict ElementModel))) : Dict ElementModel :=
  mergeDictionaries responses

/-- Modelled from the spec: mergeLinksInfo (mergeUtils.ts is not under
src); link triples deduplicated by full triple equality. -/
def mergeLinksInfo (responses : List (CompositeResponse (List LinkModel))) : List LinkModel :=
  mergeListsBy (fun lm => lm) responses

/-- Modelled from the spec: mergeLinkTypesOf (mergeUtils.ts is not under
src); counts merged by link-type id, first-registered-backend-wins. -/
def mergeLinkTypesOf (responses : List (CompositeResponse (List LinkCount))) : List LinkCount :=
  mergeListsBy LinkCount.id responses

/-- Modelled from the spec: mergeLinkElements (mergeUtils.ts is not under
src). -/
def mergeLinkElements (responses : List (CompositeResponse (Dict ElementModel))) : Dict ElementModel :=
  mergeDictionaries responses

/-- Modelled from the spec: mergeFilter (mergeUtils.ts is not under
src). -/
def mergeFilter (responses : List (CompositeResponse (Dict ElementModel))) : Dict ElementModel :=
  mergeDictionaries responses

/-- From composite.ts lines 193-203 (processResults): a settled call is
tagged with its backend's name; a rejected call is logged and converted to
a tagged result with absent payload. -/
def processResults {ρ : Type} (responsePromise : Except BackendError ρ)
    (dpName : String) : CompositeResponse ρ :=
  match responsePromise with
  | .ok response => { dataSourceName := dpName, response := some response }
  | .error _ => { dataSourceName := dpName, response := none }

/-- From composite.ts lines 237-239: the tagged results of one operation
on every registered backend, in registration order. -/
def taggedResponses {ρ : Type} (dps : List DPDefinition)
    (opCall : DataProvider → Except BackendError ρ) : List (CompositeResponse ρ) :=
  dps.map (fun dp => processResults (opCall dp.dataProvider) dp.name)

/-- From composite.ts lines 234-241 (fetchSequentially): fan out to every
backend, await all tagged results and merge them.  The operation being
dispatched (this[functionName]) is the opCall argument; the value of
Promise.all is the taggedResponses list (the timing model relating the
two is settleAll below). -/
def fetchSequentially {ρ σ : Type} (dps : List DPDefinition)
    (opCall : DataProvider → Except BackendError ρ)
    (mergeFunction : List (CompositeResponse ρ) → σ) : σ :=
  mergeFunction (taggedResponses dps opCall)

/-- One settle step of the event loop: promise i resolves and its value is
stored in slot i of the Promise.all result array. -/
def settleStep {ρ : Type} (results : List ρ) (slots : List (Option ρ)) (i : Nat) :
    List (Option ρ) :=
  slots.set i results[i]?

/-- Timing model of Promise.all over the promises of fetchSequentially:
the promises settle in an arbitrary completion order (a list of indices);
each settled promise writes its value into its own registration-order
slot.  Slots still none were never settled. -/
def settleAll {ρ : Type} (results : List ρ) (order : List Nat) : List (Option ρ) :=
  order.foldl (settleStep results) (List.replicate results.length none)

/-- The value of Promise.all: defined only once every slot has settled. -/
def collectSettled {ρ : Type} : List (Option ρ) → Option (List ρ)
  | [] => some []
  | none :: _ => none
  | some x :: rest => (collectSettled rest).map (fun l => x :: l)

/-- fetchSequentially with the explicit Promise.all timing model: the
backends settle in the given completion order, then the merge function is
applied to the collected array. -/
def fetchSequentiallyTimed {ρ σ : Type} (dps : List DPDefinition)
    (opCall : DataProvider → Except BackendError ρ)
    (mergeFunction : List (CompositeResponse ρ) → σ)
    (order : List Nat) : Option σ :=
  (collectSettled (settleAll (taggedResponses dps opCall) order)).map mergeFunction

deriving instance DecidableEq for Except

/-- A record of one backend invocation actually made by the sequential
driver: the backend's name, the callback state at the moment of the call
(for narrowable operations this is exactly the narrowed id list passed to
the backend), and the call's outcome. -/
structure Invocation (σ ρ : Type) where
  name : String
  arg : σ
  outcome : Except BackendError ρ
deriving DecidableEq, Repr

/-- From composite.ts lines 205-232 (queueProcessResults): the recursive
driver of the sequentialFetching policy.  The JS callback closes over
mutable locals (the shrinking id list); that closure state is made
explicit as sigma threaded through the recursion.  The callback returns
none for the undefined case (stop, return the responses collected so
far); on a successful call the tagged result is appended and the new
result becomes previousResult; on a failed call the error is logged and
the driver continues with the old previousResult.  The second component
is the trace of invocations actually made (the calls issued at line 214),
an observational extension used only in theorems. -/
def queueRun {σ ρ : Type}
    (callBack : σ → Option ρ → DPDefinition → Option (Except BackendError ρ) × σ) :
    List DPDefinition → σ → Option ρ →
    List (CompositeResponse ρ) × List (Invocation σ ρ)
  | [], _, _ => ([], [])
  | dp :: rest, s, result =>
    match callBack s result dp with
    | (none, _) => ([], [])
    | (some (.ok newResult), s') =>
      let next := queueRun callBack rest s' (some newResult)
      ({ dataSourceName := dp.name, response := some newResult } :: next.1,
       { name := dp.name, arg := s', outcome := .ok newResult } :: next.2)
    | (some (.error e), s') =>
      let next := queueRun callBack rest s' result
      (next.1, { name := dp.name, arg := s', outcome := .error e } :: next.2)

/-- From composite.ts lines 205-232: the response list returned by
queueProcessResults (the trace projected away). -/
def queueProcessResults {σ ρ : Type} (dps : List DPDefinition)
    (callBack : σ → Option ρ → DPDefinition → Option (Except BackendError ρ) × σ)
    (s0 : σ) : List (CompositeResponse ρ) :=
  (queueRun callBack dps s0 none).1

/-- The narrowed ids computed by one callback step, factored out of
narrowCallback so the refinement lemma can name it: the filter keeps every
id when previousResult is undefined, otherwise exactly the ids
previousResult does not resolve. -/
def narrowRemaining {ρ : Type} (resolves : ρ → String → Bool)
    (ids : List String) (prev : Option ρ) : List String :=
  ids.filter (fun id =>
    match prev with
    | none => true
    | some r => !(resolves r id))

/-- The shape shared by the five narrowable-set callbacks of composite.ts
(lines 74-77, 86-89, 98-102, 115-118, 130-141): filter the ids captured in
the closure down to those not resolved by previousResult, then either call
the backend with the narrowed ids or return undefined when none remain. -/
def narrowCallback {ρ : Type} (resolves : ρ → String → Bool)
    (call : DataProvider → List String → Except BackendError ρ) :
    List String → Option ρ → DPDefinition →
    Option (Except BackendError ρ) × List String :=
  fun ids prev dp =>
    let remaining := narrowRemaining resolves ids prev
    (if remaining.length > 0 then some (call dp.dataProvider remaining) else none,
     remaining)

/-- The shape shared by the three binary callbacks of composite.ts
(lines 149-154, 169-174, 183-188): call the backend while previousResult
is undefined or empty, otherwise return undefined. -/
def binaryCallback {ρ : Type} (isEmptyRes : ρ → Bool)
    (call : DataProvider → Except BackendError ρ) :
    Unit → Option ρ → DPDefinition → Option (Except BackendError ρ) × Unit :=
  fun _ prev dp =>
    (match prev with
     | none => some (call dp.dataProvider)
     | some r => if isEmptyRes r then some (call dp.dataProvider) else none,
     ())

/-- From composite.ts line 75: a property id is resolved when it is a key
of the previous dictionary result. -/
def propertyResolves (d : Dict PropertyModel) (id : String) : Bool :=
  (dictGet d id).isSome

/-- From composite.ts line 87: a class id is resolved when some returned
class model carries it. -/
def classResolves (r : List ClassModel) (id : String) : Bool :=
  r.any (fun cm => cm.id == id)

/-- From composite.ts lines 99-100: a link-type id is resolved when some
returned link type carries it. -/
def linkTypeResolves (r : List LinkType) (id : String) : Bool :=
  r.any (fun lt => lt.id == id)

/-- From composite.ts line 116: an element id is resolved when it is a key
of the previous dictionary result. -/
def elementResolves (d : Dict ElementModel) (id : String) : Bool :=
  (dictGet d id).isSome

/-- From composite.ts lines 131-138: an element id is resolved when some
already-found link has it as source. -/
def linkSourceResolves (r : List LinkModel) (id : String) : Bool :=
  r.any (fun lm => lm.sourceId == id)

/-- From composite.ts line 150: emptiness test of a link-count result
(previousResult.length === 0). -/
def linkCountsEmpty (r : List LinkCount) : Bool :=
  r.isEmpty

/-- From composite.ts lines 170 and 184: emptiness test of a dictionary
result (Object.keys(previousResult).length === 0). -/
def dictEmpty {α : Type} (d : Dict α) : Bool :=
  d.isEmpty

/-- From composite.ts lines 38-41: the Federation Orchestrator. -/
structure CompositeDataProvider where
  dataProviders : List DPDefinition
  mergeMode : MergeMode

/-- From composite.ts lines 44-46: the optional constructor params. -/
structure ConstructorParams where
  mergeMode : Option MergeMode

/-- From composite.ts lines 48-58: naming of the backend list — an
explicit DPDefinition is kept as is; a bare provider is named with the
current dpCounter value, which increments only on bare providers. -/
def assignNames : Nat → List (DataProvider ⊕ DPDefinition) → List DPDefinition
  | _, [] => []
  | dpCounter, .inr d :: rest => d :: assignNames dpCounter rest
  | dpCounter, .inl p :: rest =>
    { name := "dataProvider_" ++ toString dpCounter, dataProvider := p } ::
      assignNames (dpCounter + 1) rest

/-- From composite.ts lines 42-63 (constructor): assign names starting at
dpCounter = 1; mergeMode starts as fetchAll and is overwritten only when
params and params.mergeMode are both present. -/
def construct (dataProviders : List (DataProvider ⊕ DPDefinition))
    (params : Option ConstructorParams) : CompositeDataProvider :=
  { dataProviders := assignNames 1 dataProviders,
    mergeMode :=
      match params with
      | some p =>
        match p.mergeMode with
        | some m => m
        | none => .fetchAll
      | none => .fetchAll }

namespace CompositeDataProvider

/-- From composite.ts lines 65-67: classTree always uses the parallel
fan-out, with no branch on mergeMode. -/
def classTree (c : CompositeDataProvider) : List ClassModel :=
  fetchSequentially c.dataProviders (fun dp => dp.classTree) mergeClassTree

/-- From composite.ts lines 69-79: propertyInfo. -/
def propertyInfo (c : CompositeDataProvider) (propertyIds : List String) :
    Dict PropertyModel :=
  match c.mergeMode with
  | .fetchAll =>
    fetchSequentially c.dataProviders (fun dp => dp.propertyInfo propertyIds)
      mergePropertyInfo
  | .sequentialFetching =>
    mergePropertyInfo (queueProcessResults c.dataProviders
      (narrowCallback propertyResolves (fun dp ids => dp.propertyInfo ids))
      propertyIds)

/-- From composite.ts lines 81-91: classInfo. -/
def classInfo (c : CompositeDataProvider) (classIds : List String) :
    List ClassModel :=
  match c.mergeMode with
  | .fetchAll =>
    fetchSequentially c.dataProviders (fun dp => dp.classInfo classIds)
      mergeClassInfo
  | .sequentialFetching =>
    mergeClassInfo (queueProcessResults c.dataProviders
      (narrowCallback classResolves (fun dp ids => dp.classInfo ids))
      classIds)

/-- From composite.ts lines 93-104: linkTypesInfo. -/
def linkTypesInfo (c : CompositeDataProvider) (linkTypeIds : List String) :
    List LinkType :=
  match c.mergeMode with
  | .fetchAll =>
    fetchSequentially c.dataProviders (fun dp => dp.linkTypesInfo linkTypeIds)
      mergeLinkTypesInfo
  | .sequentialFetching =>
    mergeLinkTypesInfo (queueProcessResults c.dataProviders
      (narrowCallback linkTypeResolves (fun dp ids => dp.linkTypesInfo ids))
      linkTypeIds)

/-- From composite.ts lines 106-108: linkTypes always uses the parallel
fan-out, with no branch on mergeMode. -/
def linkTypes (c : CompositeDataProvider) : List LinkType :=
  fetchSequentially c.dataProviders (fun dp => dp.linkTypes) mergeLinkTypes

/-- From composite.ts lines 110-120: elementInfo. -/
def elementInfo (c : CompositeDataProvider) (elementIds : List String) :
    Dict ElementModel :=
  match c.mergeMode with
  | .fetchAll =>
    fetchSequentially c.dataProviders (fun dp => dp.elementInfo elementIds)
      mergeElementInfo
  | .sequentialFetching =>
    mergeElementInfo (queueProcessResults c.dataProviders
      (narrowCallback elementResolves (fun dp ids => dp.elementInfo ids))
      elementIds)

/-- From composite.ts lines 122-143: linksInfo; the narrowing key is the
element id list, while linkTypeIds is passed through from the original
params on every call. -/
def linksInfo (c : CompositeDataProvider) (elementIds linkTypeIds : List String) :
    List LinkModel :=
  match c.mergeMode with
  | .fetchAll =>
    fetchSequentially c.dataProviders
      (fun dp => dp.linksInfo elementIds linkTypeIds) mergeLinksInfo
  | .sequentialFetching =>
    mergeLinksInfo (queueProcessResults c.dataProviders
      (narrowCallback linkSourceResolves
        (fun dp ids => dp.linksInfo ids linkTypeIds))
      elementIds)

/-- From composite.ts lines 145-157: linkTypesOf, a binary operation. -/
def linkTypesOf (c : CompositeDataProvider) (elementId : String) :
    List LinkCount :=
  match c.mergeMode with
  | .fetchAll =>
    fetchSequentially c.dataProviders (fun dp => dp.linkTypesOf elementId)
      mergeLinkTypesOf
  | .sequentialFetching =>
    mergeLinkTypesOf (queueProcessResults c.dataProviders
      (binaryCallback linkCountsEmpty (fun dp => dp.linkTypesOf elementId))
      ())

/-- From composite.ts lines 159-177: linkElements, a binary operation. -/
def linkElements (c : CompositeDataProvider) (params : LinkElementsParams) :
    Dict ElementModel :=
  match c.mergeMode with
  | .fetchAll =>
    fetchSequentially c.dataProviders (fun dp => dp.linkElements params)
      mergeLinkElements
  | .sequentialFetching =>
    mergeLinkElements (queueProcessResults c.dataProviders
      (binaryCallback dictEmpty (fun dp => dp.linkElements params))
      ())

/-- From composite.ts lines 179-191: filter, a binary operation. -/
def filter (c : CompositeDataProvider) (params : FilterParams) :
    Dict ElementModel :=
  match c.mergeMode with
  | .fetchAll =>
    fetchSequentially c.dataProviders (fun dp => dp.filter params) mergeFilter
  | .sequentialFetching =>
    mergeFilter (queueProcessResults c.dataProviders
      (binaryCallback dictEmpty (fun dp => dp.filter params))
      ())

end CompositeDataProvider

/-- Modelled from the spec (Policy B, narrowable set operations): process
backends strictly in registration order with an explicit remaining set;
when remaining is empty the backend is not invoked at all (and, remaining
never growing, no later backend is either); otherwise the backend is
invoked with exactly the remaining ids; on success the newly resolved ids
are removed before the next backend; on failure the driver continues with
remaining unchanged.  First component: the tagged results of the
successful calls, in registration order.  Second component: the trace of
invocations made, each carrying the exact id subset passed. -/
def narrowSpecRun {ρ : Type} (resolves : ρ → String → Bool)
    (call : DataProvider → List String → Except BackendError ρ) :
    List DPDefinition → List String →
    List (CompositeResponse ρ) × List (Invocation (List String) ρ)
  | [], _ => ([], [])
  | dp :: rest, remaining =>
    if remaining.isEmpty then ([], [])
    else
      match call dp.dataProvider remaining with
      | .ok r =>
        let next := narrowSpecRun resolves call rest
          (remaining.filter (fun id => !(resolves r id)))
        ({ dataSourceName := dp.name, response := some r } :: next.1,
         { name := dp.name, arg := remaining, outcome := .ok r } :: next.2)
      | .error e =>
        let next := narrowSpecRun resolves call rest remaining
        (next.1, { name := dp.name, arg := remaining, outcome := .error e } :: next.2)

/-- Modelled from the spec (Policy B, binary operations): process backends
in registration order; a backend is invoked only while no non-empty
result has been found; the first backend returning a non-empty result
ends the sequence, so later backends are never invoked; a failure is
treated as empty and the sequence proceeds. -/
def binarySpecRun {ρ : Type} (isEmptyRes : ρ → Bool)
    (call : DataProvider → Except BackendError ρ) :
    List DPDefinition →
    List (CompositeResponse ρ) × List (Invocation Unit ρ)
  | [] => ([], [])
  | dp :: rest =>
    match call dp.dataProvider with
    | .ok r =>
      if isEmptyRes r then
        let next := binarySpecRun isEmptyRes call rest
        ({ dataSourceName := dp.name, response := some r } :: next.1,
         { name := dp.name, arg := (), outcome := .ok r } :: next.2)
      else
        ([{ dataSourceName := dp.name, response := some r }],
         [{ name := dp.name, arg := (), outcome := .ok r }])
    | .error e =>
      let next := binarySpecRun isEmptyRes call rest
      (next.1, { name := dp.name, arg := (), outcome := .error e } :: next.2)

/-- Modelled from the spec: the payload of the earliest tagged result (in
registration order) whose dictionary contains the key — the value the
first-registered-backend-wins rule must keep. -/
def firstAnswer {α : Type} : List (CompositeResponse (Dict α)) → String → Option α
  | [], _ => none
  | r :: rest, k =>
    match r.response with
    | some d =>
      match dictGet d k with
      | some v => some v
      | none => firstAnswer rest k
    | none => firstAnswer rest k

/-- The parameter object a backend invocation receives: either the very
object the caller passed to the orchestrator (aliased, shared by every
such invocation of one operation), or a freshly constructed object
literal carrying a narrowed id list. -/
inductive ParamArg where
  | caller
  | freshNarrowed (ids : List String)
deriving DecidableEq, Repr

/-- From composite.ts line 238: under fetchAll, every backend is invoked
with the same caller-supplied params object, one invocation per
registered backend. -/
def fetchAllParamArgs (dps : List DPDefinition) : List ParamArg :=
  dps.map (fun _ => ParamArg.caller)

/-- From composite.ts lines 76, 88, 101, 117 and 139-140: under
sequentialFetching, each narrowable-set invocation receives a freshly
constructed object literal holding the narrowed id list of that step. -/
def narrowSeqParamArgs {ρ : Type} (resolves : ρ → String → Bool)
    (call : DataProvider → List String → Except BackendError ρ)
    (dps : List DPDefinition) (ids : List String) : List ParamArg :=
  ((queueRun (narrowCallback resolves call) dps ids none).2).map
    (fun inv => ParamArg.freshNarrowed inv.arg)

/-- From composite.ts lines 151, 171 and 185: under sequentialFetching,
each binary-operation invocation receives the caller-supplied params
object itself. -/
def binarySeqParamArgs {ρ : Type} (isEmptyRes : ρ → Bool)
    (call : DataProvider → Except BackendError ρ)
    (dps : List DPDefinition) : List ParamArg :=
  ((queueRun (binaryCallback isEmptyRes call) dps () none).2).map
    (fun _ => ParamArg.caller)

/-- The spec's aliasing invariant: every backend invocation of an
operation receives its own freshly constructed narrowed params object
(never the caller's object). -/
def ownFreshCopies (argsPassed : List ParamArg) : Prop :=
  ∀ a ∈ argsPassed, ∃ ids, a = ParamArg.freshNarrowed ids

/-- Two successive invocations of the same read operation on the same
orchestrator value (the backends unchanged between the calls). -/
def invokeTwice {α : Type} (op : CompositeDataProvider → α)
    (c : CompositeDataProvider) : α × α :=
  let firstCall := op c
  let secondCall := op c
  (firstCall, secondCall)

/-- An element record used by the concrete examples. -/
def exElem (id : String) : ElementModel :=
  { id := id, label := id, types := [] }

/-- A backend whose every call succeeds with an empty result. -/
def emptyDP : DataProvider :=
  { classTree := .ok []
    classInfo := fun _ => .ok []
    propertyInfo := fun _ => .ok []
    linkTypesInfo := fun _ => .ok []
    linkTypes := .ok []
    elementInfo := fun _ => .ok []
    linksInfo := fun _ _ => .ok []
    linkTypesOf := fun _ => .ok []
    linkElements := fun _ => .ok []
    filter := fun _ => .ok [] }

/-- A backend whose every call rejects. -/
def allFailDP : DataProvider :=
  { classTree := .error { message := "down" }
    classInfo := fun _ => .error { message := "down" }
    propertyInfo := fun _ => .error { message := "down" }
    linkTypesInfo := fun _ => .error { message := "down" }
    linkTypes := .error { message := "down" }
    elementInfo := fun _ => .error { message := "down" }
    linksInfo := fun _ _ => .error { message := "down" }
    linkTypesOf := fun _ => .error { message := "down" }
    linkElements := fun _ => .error { message := "down" }
    filter := fun _ => .error { message := "down" }
  }

/-- A backend that resolves exactly the element ids named in its known
list, answering each with exElem tagged by the given marker label. -/
def knownElemDP (known : List String) (marker : String) : DataProvider :=
  { emptyDP with
    elementInfo := fun ids =>
      .ok ((ids.filter (fun i => known.contains i)).map
        (fun i => (i, ({ id := i, label := marker, types := [] } : ElementModel)))) }

/-- A backend answering filter and linkElements with a fixed dictionary
and linkTypesOf with a fixed count list. -/
def binaryDP (answer : Dict ElementModel) (counts : List LinkCount) : DataProvider :=
  { emptyDP with
    filter := fun _ => .ok answer
    linkElements := fun _ => .ok answer
    linkTypesOf := fun _ => .ok counts }

section PromiseAllModel

variable {ρ : Type}

lemma foldl_settleStep_length (results : List ρ) :
    ∀ (order : List Nat) (slots : List (Option ρ)),
      (order.foldl (settleStep results) slots).length = slots.length := by
  intro order
  induction order with
  | nil => intro slots; rfl
  | cons i rest ih =>
    intro slots
    simp only [List.foldl_cons, ih, settleStep, List.length_set]

lemma foldl_settleStep_getElem? (results : List ρ) :
    ∀ (order : List Nat) (slots : List (Option ρ)) (j : Nat),
      (order.foldl (settleStep results) slots)[j]? =
        if j ∈ order ∧ j < slots.length then some results[j]? else slots[j]? := by
  intro order
  induction order with
  | nil =>
    intro slots j
    simp
  | cons i rest ih =>
    intro slots j
    rw [List.foldl_cons, ih]
    by_cases hjl : j < slots.length
    · by_cases hjr : j ∈ rest
      · simp [settleStep, hjr, hjl, List.mem_cons]
      · by_cases hij : i = j
        · subst hij
          simp [settleStep, hjr, hjl, List.getElem?_set_self hjl, List.mem_cons]
        · simp [settleStep, hjr, hjl, hij, List.getElem?_set_ne hij, List.mem_cons,
            Ne.symm hij]
    · have h1 : slots.length ≤ j := Nat.le_of_not_lt hjl
      rw [if_neg (by simp [settleStep, hjl]), if_neg (by simp [hjl])]
      rw [List.getElem?_eq_none (by simpa [settleStep] using h1),
        List.getElem?_eq_none h1]

lemma settleAll_covers (results : List ρ) (order : List Nat)
    (h : ∀ i, i < results.length → i ∈ order) :
    settleAll results order = results.map some := by
  apply List.ext_getElem?
  intro j
  rw [settleAll, foldl_settleStep_getElem?]
  by_cases hj : j < results.length
  · simp [h j hj, hj, List.getElem?_eq_getElem hj]
  · have h1 : results.length ≤ j := Nat.le_of_not_lt hj
    rw [if_neg (by simp [hj])]
    rw [List.getElem?_replicate, if_neg hj,
      List.getElem?_eq_none (by simpa using h1)]

lemma collectSettled_map_some (l : List ρ) : collectSettled (l.map some) = some l := by
  induction l with
  | nil => rfl
  | cons x rest ih => simp [collectSettled, ih]

end PromiseAllModel

/-- C1: for every operation (generic opCall) and every registered backend
list, if the backend at position i rejects, the fetchAll orchestration
still resolves (fetchSequentially is total): the failing backend becomes a
tagged result with absent payload, all other backends contribute their
full tagged results, and the merged output equals the merge of the
all-succeed tagged list (dpsOk, agreeing with dps everywhere but i) with
entry i replaced by the no-contribution tagged result. -/
theorem claim1_fault_isolation {ρ σ : Type}
    (mergeFunction : List (CompositeResponse ρ) → σ)
    (dps dpsOk : List DPDefinition)
    (opCall : DataProvider → Except BackendError ρ)
    (i : Nat) (dpi : DPDefinition) (e : BackendError)
    (hi : dps[i]? = some dpi)
    (hfail : opCall dpi.dataProvider = .error e)
    (hnames : dps.map DPDefinition.name = dpsOk.map DPDefinition.name)
    (hagree : ∀ j, j ≠ i →
      (dps[j]?).map (fun d => opCall d.dataProvider)
        = (dpsOk[j]?).map (fun d => opCall d.dataProvider))
    (_hok : ∀ d ∈ dpsOk, ∃ r, opCall d.dataProvider = .ok r) :
    fetchSequentially dps opCall mergeFunction
      = mergeFunction ((taggedResponses dpsOk opCall).set i
          { dataSourceName := dpi.name, response := none }) := by
  unfold fetchSequentially
  congr 1
  have hlen : dps.length = dpsOk.length := by
    have h := congrArg List.length hnames
    simpa using h
  have hilt : i < dps.length := by
    by_contra hlt
    rw [List.getElem?_eq_none (Nat.le_of_not_lt hlt)] at hi
    cases hi
  apply List.ext_getElem?
  intro j
  by_cases hij : j = i
  · subst hij
    have hjlt : j < (taggedResponses dpsOk opCall).length := by
      simp only [taggedResponses, List.length_map]
      omega
    rw [List.getElem?_set_self hjlt]
    rw [taggedResponses, List.getElem?_map, hi]
    simp [processResults, hfail]
  · rw [List.getElem?_set_ne (fun h => hij h.symm)]
    have hnj : (dps[j]?).map DPDefinition.name = (dpsOk[j]?).map DPDefinition.name := by
      have h := congrArg (fun l => l[j]?) hnames
      simpa using h
    have hoj := hagree j hij
    rw [taggedResponses, taggedResponses, List.getElem?_map, List.getElem?_map]
    cases hd : dps[j]? with
    | none =>
      cases hd' : dpsOk[j]? with
      | none => rfl
      | some d' => rw [hd, hd'] at hnj; simp at hnj
    | some d =>
      cases hd' : dpsOk[j]? with
      | none => rw [hd, hd'] at hnj; simp at hnj
      | some d' =>
        rw [hd, hd'] at hnj hoj
        have h1 : d.name = d'.name := by simpa using hnj
        have h2 : opCall d.dataProvider = opCall d'.dataProvider := by simpa using hoj
        simp [processResults, h1, h2]

/-- The backend list of the C1 witness: backend b rejects. -/
def dpsWithFailure : List DPDefinition :=
  [{ name := "a", dataProvider := emptyDP },
   { name := "b", dataProvider := allFailDP },
   { name := "c", dataProvider := emptyDP }]

/-- The all-succeed counterpart of dpsWithFailure. -/
def dpsAllOk : List DPDefinition :=
  [{ name := "a", dataProvider := emptyDP },
   { name := "b", dataProvider := emptyDP },
   { name := "c", dataProvider := emptyDP }]

theorem claim1_fault_isolation_witness :
    fetchSequentially dpsWithFailure (fun dp => dp.elementInfo ["1"]) mergeElementInfo
      = mergeElementInfo
          ((taggedResponses dpsAllOk (fun dp => dp.elementInfo ["1"])).set 1
            { dataSourceName := "b", response := none }) :=
  claim1_fault_isolation mergeElementInfo dpsWithFailure dpsAllOk
    (fun dp => dp.elementInfo ["1"]) 1
    { name := "b", dataProvider := allFailDP } { message := "down" }
    rfl rfl rfl
    (by
      intro j hj
      match j with
      | 0 => rfl
      | 1 => exact absurd rfl hj
      | 2 => rfl
      | n + 3 => rfl)
    (by
      intro d hd
      fin_cases hd <;> exact ⟨[], rfl⟩)

/-- C2: under the fetchAll policy, for every completion order that settles
each backend's promise at least once, the array Promise.all hands to the
merge function equals the taggedResponses list in registration order, so
the merged output is that of fetchSequentially — completion order has no
effect. -/
theorem claim2_order_invariance {ρ σ : Type}
    (dps : List DPDefinition) (opCall : DataProvider → Except BackendError ρ)
    (mergeFunction : List (CompositeResponse ρ) → σ) (order : List Nat)
    (horder : ∀ i, i < dps.length → i ∈ order) :
    fetchSequentiallyTimed dps opCall mergeFunction order
      = some (fetchSequentially dps opCall mergeFunction) := by
  unfold fetchSequentiallyTimed fetchSequentially
  rw [settleAll_covers _ _ (by simpa [taggedResponses] using horder),
    collectSettled_map_some]
  rfl

theorem claim2_order_invariance_witness :
    fetchSequentiallyTimed dpsWithFailure (fun dp => dp.classTree) mergeClassTree
        [2, 0, 1]
      = some (fetchSequentially dpsWithFailure (fun dp => dp.classTree) mergeClassTree) :=
  claim2_order_invariance dpsWithFailure (fun dp => dp.classTree) mergeClassTree
    [2, 0, 1]
    (by
      intro i hi
      match i with
      | 0 => simp
      | 1 => simp
      | 2 => simp
      | n + 3 => simp [dpsWithFailure] at hi)

/-- C5: classTree and linkTypes fan out to every registered backend and
merge all tagged results, whatever the configured policy: the result is
the fetchAll behavior for every mergeMode value. -/
theorem claim5_whole_catalog_ops (dps : List DPDefinition) (mode : MergeMode) :
    (CompositeDataProvider.classTree { dataProviders := dps, mergeMode := mode }
       = mergeClassTree (taggedResponses dps (fun dp => dp.classTree)))
    ∧ (CompositeDataProvider.linkTypes { dataProviders := dps, mergeMode := mode }
       = mergeLinkTypes (taggedResponses dps (fun dp => dp.linkTypes))) :=
  ⟨rfl, rfl⟩

section SequentialRefinement

variable {ρ : Type}

lemma narrowRemaining_idem (resolves : ρ → String → Bool) (ids : List String)
    (prev : Option ρ) :
    narrowRemaining resolves (narrowRemaining resolves ids prev) prev
      = narrowRemaining resolves ids prev := by
  cases prev with
  | none => simp [narrowRemaining]
  | some r => simp [narrowRemaining, List.filter_filter]

lemma queueRun_narrowCallback (resolves : ρ → String → Bool)
    (call : DataProvider → List String → Except BackendError ρ) :
    ∀ (dps : List DPDefinition) (ids : List String) (prev : Option ρ),
      queueRun (narrowCallback resolves call) dps ids prev
        = narrowSpecRun resolves call dps (narrowRemaining resolves ids prev) := by
  intro dps
  induction dps with
  | nil => intro ids prev; rfl
  | cons dp rest ih =>
    intro ids prev
    have hcb : narrowCallback resolves call ids prev dp
        = (if (narrowRemaining resolves ids prev).length > 0
             then some (call dp.dataProvider (narrowRemaining resolves ids prev))
             else none,
           narrowRemaining resolves ids prev) := rfl
    by_cases hrem : (narrowRemaining resolves ids prev).length > 0
    · rw [if_pos hrem] at hcb
      have hne : (narrowRemaining resolves ids prev).isEmpty = false := by
        rcases h0 : narrowRemaining resolves ids prev with _ | ⟨x, xs⟩
        · rw [h0] at hrem; simp at hrem
        · rfl
      cases hcall : call dp.dataProvider (narrowRemaining resolves ids prev) with
      | ok r =>
        rw [hcall] at hcb
        simp only [queueRun, hcb, narrowSpecRun, hne, Bool.false_eq_true, if_false,
          hcall]
        rw [ih]
        have harg : narrowRemaining resolves (narrowRemaining resolves ids prev) (some r)
            = (narrowRemaining resolves ids prev).filter (fun id => !(resolves r id)) := rfl
        rw [harg]
      | error e =>
        rw [hcall] at hcb
        simp only [queueRun, hcb, narrowSpecRun, hne, Bool.false_eq_true, if_false,
          hcall]
        rw [ih, narrowRemaining_idem]
    · rw [if_neg hrem] at hcb
      have h0 : narrowRemaining resolves ids prev = [] :=
        List.length_eq_zero.mp (by omega)
      simp [queueRun, hcb, narrowSpecRun, h0]

lemma queueRun_narrowCallback_start (resolves : ρ → String → Bool)
    (call : DataProvider → List String → Except BackendError ρ)
    (dps : List DPDefinition) (ids : List String) :
    queueRun (narrowCallback resolves call) dps ids none
      = narrowSpecRun resolves call dps ids := by
  rw [queueRun_narrowCallback]
  have h : narrowRemaining resolves ids none = ids := by
    simp [narrowRemaining]
  rw [h]

lemma narrowSpecRun_arg_ne_nil (resolves : ρ → String → Bool)
    (call : DataProvider → List String → Except BackendError ρ) :
    ∀ (dps : List DPDefinition) (req : List String)
      (inv : Invocation (List String) ρ),
      inv ∈ (narrowSpecRun resolves call dps req).2 → inv.arg ≠ [] := by
  intro dps
  induction dps with
  | nil => intro req inv h; simp [narrowSpecRun] at h
  | cons dp rest ih =>
    intro req inv h
    by_cases hemp : req.isEmpty = true
    · simp [narrowSpecRun, hemp] at h
    · have hreq : req ≠ [] := by
        intro hh
        exact hemp (by simp [hh])
      cases hcall : call dp.dataProvider req with
      | ok r =>
        simp only [narrowSpecRun, hemp, Bool.false_eq_true, if_false, hcall,
          List.mem_cons] at h
        rcases h with h | h
        · rw [h]
          exact hreq
        · exact ih _ inv h
      | error e =>
        simp only [narrowSpecRun, hemp, Bool.false_eq_true, if_false, hcall,
          List.mem_cons] at h
        rcases h with h | h
        · rw [h]
          exact hreq
        · exact ih req inv h

lemma queueRun_binaryCallback_stop (isEmptyRes : ρ → Bool)
    (call : DataProvider → Except BackendError ρ) (r : ρ)
    (h : isEmptyRes r = false) :
    ∀ (dps : List DPDefinition),
      queueRun (binaryCallback isEmptyRes call) dps () (some r) = ([], []) := by
  intro dps
  cases dps with
  | nil => rfl
  | cons dp rest => simp [queueRun, binaryCallback, h]

lemma queueRun_binaryCallback (isEmptyRes : ρ → Bool)
    (call : DataProvider → Except BackendError ρ) :
    ∀ (dps : List DPDefinition) (prev : Option ρ),
      (∀ r, prev = some r → isEmptyRes r = true) →
      queueRun (binaryCallback isEmptyRes call) dps () prev
        = binarySpecRun isEmptyRes call dps := by
  intro dps
  induction dps with
  | nil => intro prev _; rfl
  | cons dp rest ih =>
    intro prev hprev
    have hcb : binaryCallback isEmptyRes call () prev dp
        = (some (call dp.dataProvider), ()) := by
      cases prev with
      | none => rfl
      | some r => simp [binaryCallback, hprev r rfl]
    cases hcall : call dp.dataProvider with
    | ok r =>
      by_cases hemp : isEmptyRes r = true
      · simp only [queueRun, hcb, hcall, binarySpecRun, hemp, if_true]
        rw [ih (some r) (fun r' hr' => by cases hr'; exact hemp)]
      · have hf : isEmptyRes r = false := Bool.eq_false_iff.mpr hemp
        simp only [queueRun, hcb, hcall, binarySpecRun, hf, Bool.false_eq_true,
          if_false]
        rw [queueRun_binaryCallback_stop isEmptyRes call r hf rest]
    | error e =>
      simp only [queueRun, hcb, hcall, binarySpecRun]
      rw [ih prev hprev]

end SequentialRefinement

/-- C3: under sequentialFetching, each of the five narrowable set
operations refines narrowSpecRun, the spec-worded narrowing recursion:
backends are processed strictly in registration order; each invocation
(recorded in the trace with its exact argument) receives precisely the
remaining subset of requested ids not already resolved by the successful
results of earlier backends, the remaining set shrinking immediately after
every success and staying unchanged across a failure; and no invocation is
ever made with an empty remaining set (when remaining is empty the backend
is not invoked at all). -/
theorem claim3_narrowing_subsets
    (c : CompositeDataProvider) (hmode : c.mergeMode = .sequentialFetching)
    (pids cids ltids eids lids ltids2 : List String) :
    (c.propertyInfo pids
        = mergePropertyInfo (narrowSpecRun propertyResolves
            (fun dp ids => dp.propertyInfo ids) c.dataProviders pids).1
      ∧ queueRun (narrowCallback propertyResolves (fun dp ids => dp.propertyInfo ids))
            c.dataProviders pids none
          = narrowSpecRun propertyResolves (fun dp ids => dp.propertyInfo ids)
              c.dataProviders pids)
    ∧ (c.classInfo cids
        = mergeClassInfo (narrowSpecRun classResolves
            (fun dp ids => dp.classInfo ids) c.dataProviders cids).1
      ∧ queueRun (narrowCallback classResolves (fun dp ids => dp.classInfo ids))
            c.dataProviders cids none
          = narrowSpecRun classResolves (fun dp ids => dp.classInfo ids)
              c.dataProviders cids)
    ∧ (c.linkTypesInfo ltids
        = mergeLinkTypesInfo (narrowSpecRun linkTypeResolves
            (fun dp ids => dp.linkTypesInfo ids) c.dataProviders ltids).1
      ∧ queueRun (narrowCallback linkTypeResolves (fun dp ids => dp.linkTypesInfo ids))
            c.dataProviders ltids none
          = narrowSpecRun linkTypeResolves (fun dp ids => dp.linkTypesInfo ids)
              c.dataProviders ltids)
    ∧ (c.elementInfo eids
        = mergeElementInfo (narrowSpecRun elementResolves
            (fun dp ids => dp.elementInfo ids) c.dataProviders eids).1
      ∧ queueRun (narrowCallback elementResolves (fun dp ids => dp.elementInfo ids))
            c.dataProviders eids none
          = narrowSpecRun elementResolves (fun dp ids => dp.elementInfo ids)
              c.dataProviders eids)
    ∧ (c.linksInfo lids ltids2
        = mergeLinksInfo (narrowSpecRun linkSourceResolves
            (fun dp ids => dp.linksInfo ids ltids2) c.dataProviders lids).1
      ∧ queueRun (narrowCallback linkSourceResolves (fun dp ids => dp.linksInfo ids ltids2))
            c.dataProviders lids none
          = narrowSpecRun linkSourceResolves (fun dp ids => dp.linksInfo ids ltids2)
              c.dataProviders lids)
    ∧ (∀ (ρ : Type) (resolves : ρ → String → Bool)
          (call : DataProvider → List String → Except BackendError ρ)
          (dps : List DPDefinition) (req : List String)
          (inv : Invocation (List String) ρ),
        inv ∈ (narrowSpecRun resolves call dps req).2 → inv.arg ≠ []) := by
  refine ⟨⟨?_, ?_⟩, ⟨?_, ?_⟩, ⟨?_, ?_⟩, ⟨?_, ?_⟩, ⟨?_, ?_⟩, ?_⟩
  · simp only [CompositeDataProvider.propertyInfo, hmode, queueProcessResults,
      queueRun_narrowCallback_start]
  · exact queueRun_narrowCallback_start _ _ _ _
  · simp only [CompositeDataProvider.classInfo, hmode, queueProcessResults,
      queueRun_narrowCallback_start]
  · exact queueRun_narrowCallback_start _ _ _ _
  · simp only [CompositeDataProvider.linkTypesInfo, hmode, queueProcessResults,
      queueRun_narrowCallback_start]
  · exact queueRun_narrowCallback_start _ _ _ _
  · simp only [CompositeDataProvider.elementInfo, hmode, queueProcessResults,
      queueRun_narrowCallback_start]
  · exact queueRun_narrowCallback_start _ _ _ _
  · simp only [CompositeDataProvider.linksInfo, hmode, queueProcessResults,
      queueRun_narrowCallback_start]
  · exact queueRun_narrowCallback_start _ _ _ _
  · intro ρ resolves call dps req inv h
    exact narrowSpecRun_arg_ne_nil resolves call dps req inv h

/-- The sequentialFetching orchestrator of the narrowing example: backend
A resolves elements 1 and 2, backend B resolves 1, 2 and 3. -/
def seqComposite : CompositeDataProvider :=
  { dataProviders :=
      [{ name := "A", dataProvider := knownElemDP ["1", "2"] "A" },
       { name := "B", dataProvider := knownElemDP ["1", "2", "3"] "B" }],
    mergeMode := .sequentialFetching }

theorem claim3_narrowing_subsets_witness :
    seqComposite.mergeMode = .sequentialFetching ∧
    ((seqComposite.propertyInfo ["1"]
        = mergePropertyInfo (narrowSpecRun propertyResolves
            (fun dp ids => dp.propertyInfo ids) seqComposite.dataProviders ["1"]).1
      ∧ queueRun (narrowCallback propertyResolves (fun dp ids => dp.propertyInfo ids))
            seqComposite.dataProviders ["1"] none
          = narrowSpecRun propertyResolves (fun dp ids => dp.propertyInfo ids)
              seqComposite.dataProviders ["1"])
    ∧ (seqComposite.classInfo ["1"]
        = mergeClassInfo (narrowSpecRun classResolves
            (fun dp ids => dp.classInfo ids) seqComposite.dataProviders ["1"]).1
      ∧ queueRun (narrowCallback classResolves (fun dp ids => dp.classInfo ids))
            seqComposite.dataProviders ["1"] none
          = narrowSpecRun classResolves (fun dp ids => dp.classInfo ids)
              seqComposite.dataProviders ["1"])
    ∧ (seqComposite.linkTypesInfo ["1"]
        = mergeLinkTypesInfo (narrowSpecRun linkTypeResolves
            (fun dp ids => dp.linkTypesInfo ids) seqComposite.dataProviders ["1"]).1
      ∧ queueRun (narrowCallback linkTypeResolves (fun dp ids => dp.linkTypesInfo ids))
            seqComposite.dataProviders ["1"] none
          = narrowSpecRun linkTypeResolves (fun dp ids => dp.linkTypesInfo ids)
              seqComposite.dataProviders ["1"])
    ∧ (seqComposite.elementInfo ["1", "2", "3"]
        = mergeElementInfo (narrowSpecRun elementResolves
            (fun dp ids => dp.elementInfo ids) seqComposite.dataProviders ["1", "2", "3"]).1
      ∧ queueRun (narrowCallback elementResolves (fun dp ids => dp.elementInfo ids))
            seqComposite.dataProviders ["1", "2", "3"] none
          = narrowSpecRun elementResolves (fun dp ids => dp.elementInfo ids)
              seqComposite.dataProviders ["1", "2", "3"])
    ∧ (seqComposite.linksInfo ["1"] ["t"]
        = mergeLinksInfo (narrowSpecRun linkSourceResolves
            (fun dp ids => dp.linksInfo ids ["t"]) seqComposite.dataProviders ["1"]).1
      ∧ queueRun (narrowCallback linkSourceResolves (fun dp ids => dp.linksInfo ids ["t"]))
            seqComposite.dataProviders ["1"] none
          = narrowSpecRun linkSourceResolves (fun dp ids => dp.linksInfo ids ["t"])
              seqComposite.dataProviders ["1"])
    ∧ (∀ (ρ : Type) (resolves : ρ → String → Bool)
          (call : DataProvider → List String → Except BackendError ρ)
          (dps : List DPDefinition) (req : List String)
          (inv : Invocation (List String) ρ),
        inv ∈ (narrowSpecRun resolves call dps req).2 → inv.arg ≠ [])) :=
  ⟨rfl, claim3_narrowing_subsets seqComposite rfl ["1"] ["1"] ["1"] ["1", "2", "3"]
    ["1"] ["t"]⟩

/-- C4: under sequentialFetching, each of the three binary operations
refines binarySpecRun, the spec-worded first-success recursion: backends
are processed in registration order, a backend is invoked only while the
result found so far is empty, the first backend returning a non-empty
result ends the sequence (its invocation is the last one of the trace, so
later backends are never invoked whatever they would return), and a
backend failure is treated as an empty result, the sequence proceeding to
the next backend. -/
theorem claim4_binary_first_success
    (c : CompositeDataProvider) (hmode : c.mergeMode = .sequentialFetching)
    (elementId : String) (leParams : LinkElementsParams) (fParams : FilterParams) :
    (c.linkTypesOf elementId
        = mergeLinkTypesOf (binarySpecRun linkCountsEmpty
            (fun dp => dp.linkTypesOf elementId) c.dataProviders).1
      ∧ queueRun (binaryCallback linkCountsEmpty (fun dp => dp.linkTypesOf elementId))
            c.dataProviders () none
          = binarySpecRun linkCountsEmpty (fun dp => dp.linkTypesOf elementId)
              c.dataProviders)
    ∧ (c.linkElements leParams
        = mergeLinkElements (binarySpecRun dictEmpty
            (fun dp => dp.linkElements leParams) c.dataProviders).1
      ∧ queueRun (binaryCallback dictEmpty (fun dp => dp.linkElements leParams))
            c.dataProviders () none
          = binarySpecRun dictEmpty (fun dp => dp.linkElements leParams)
              c.dataProviders)
    ∧ (c.filter fParams
        = mergeFilter (binarySpecRun dictEmpty
            (fun dp => dp.filter fParams) c.dataProviders).1
      ∧ queueRun (binaryCallback dictEmpty (fun dp => dp.filter fParams))
            c.dataProviders () none
          = binarySpecRun dictEmpty (fun dp => dp.filter fParams)
              c.dataProviders)
    ∧ (∀ (ρ : Type) (isEmptyRes : ρ → Bool)
          (call : DataProvider → Except BackendError ρ)
          (dp : DPDefinition) (rest : List DPDefinition) (r : ρ),
        call dp.dataProvider = .ok r → isEmptyRes r = false →
        binarySpecRun isEmptyRes call (dp :: rest)
          = ([{ dataSourceName := dp.name, response := some r }],
             [{ name := dp.name, arg := (), outcome := .ok r }]))
    ∧ (∀ (ρ : Type) (isEmptyRes : ρ → Bool)
          (call : DataProvider → Except BackendError ρ)
          (dp : DPDefinition) (rest : List DPDefinition) (e : BackendError),
        call dp.dataProvider = .error e →
        binarySpecRun isEmptyRes call (dp :: rest)
          = ((binarySpecRun isEmptyRes call rest).1,
             { name := dp.name, arg := (), outcome := .error e }
               :: (binarySpecRun isEmptyRes call rest).2)) := by
  refine ⟨⟨?_, ?_⟩, ⟨?_, ?_⟩, ⟨?_, ?_⟩, ?_, ?_⟩
  · simp only [CompositeDataProvider.linkTypesOf, hmode, queueProcessResults]
    rw [queueRun_binaryCallback _ _ c.dataProviders none (fun r hr => by cases hr)]
  · exact queueRun_binaryCallback _ _ c.dataProviders none (fun r hr => by cases hr)
  · simp only [CompositeDataProvider.linkElements, hmode, queueProcessResults]
    rw [queueRun_binaryCallback _ _ c.dataProviders none (fun r hr => by cases hr)]
  · exact queueRun_binaryCallback _ _ c.dataProviders none (fun r hr => by cases hr)
  · simp only [CompositeDataProvider.filter, hmode, queueProcessResults]
    rw [queueRun_binaryCallback _ _ c.dataProviders none (fun r hr => by cases hr)]
  · exact queueRun_binaryCallback _ _ c.dataProviders none (fun r hr => by cases hr)
  · intro ρ isEmptyRes call dp rest r hcall hemp
    simp [binarySpecRun, hcall, hemp]
  · intro ρ isEmptyRes call dp rest e hcall
    simp [binarySpecRun, hcall]

/-- The sequentialFetching orchestrator of the binary example: backend A
answers filter with a non-empty dictionary, backend B with a different
one. -/
def binaryComposite : CompositeDataProvider :=
  { dataProviders :=
      [{ name := "A", dataProvider := binaryDP [("2", exElem "2")] [] },
       { name := "B", dataProvider := binaryDP [("9", exElem "9")] [] }],
    mergeMode := .sequentialFetching }

theorem claim4_binary_first_success_witness :
    binaryComposite.mergeMode = .sequentialFetching ∧
    ((binaryComposite.linkTypesOf "1"
        = mergeLinkTypesOf (binarySpecRun linkCountsEmpty
            (fun dp => dp.linkTypesOf "1") binaryComposite.dataProviders).1
      ∧ queueRun (binaryCallback linkCountsEmpty (fun dp => dp.linkTypesOf "1"))
            binaryComposite.dataProviders () none
          = binarySpecRun linkCountsEmpty (fun dp => dp.linkTypesOf "1")
              binaryComposite.dataProviders)
    ∧ (binaryComposite.linkElements
          { elementId := "1", linkId := "t", limit := 10, offset := 0, direction := none }
        = mergeLinkElements (binarySpecRun dictEmpty
            (fun dp => dp.linkElements
              { elementId := "1", linkId := "t", limit := 10, offset := 0, direction := none })
            binaryComposite.dataProviders).1
      ∧ queueRun (binaryCallback dictEmpty
            (fun dp => dp.linkElements
              { elementId := "1", linkId := "t", limit := 10, offset := 0, direction := none }))
            binaryComposite.dataProviders () none
          = binarySpecRun dictEmpty
              (fun dp => dp.linkElements
                { elementId := "1", linkId := "t", limit := 10, offset := 0, direction := none })
              binaryComposite.dataProviders)
    ∧ (binaryComposite.filter { text := "q", refElementId := none }
        = mergeFilter (binarySpecRun dictEmpty
            (fun dp => dp.filter { text := "q", refElementId := none })
            binaryComposite.dataProviders).1
      ∧ queueRun (binaryCallback dictEmpty
            (fun dp => dp.filter { text := "q", refElementId := none }))
            binaryComposite.dataProviders () none
          = binarySpecRun dictEmpty
              (fun dp => dp.filter { text := "q", refElementId := none })
              binaryComposite.dataProviders)
    ∧ (∀ (ρ : Type) (isEmptyRes : ρ → Bool)
          (call : DataProvider → Except BackendError ρ)
          (dp : DPDefinition) (rest : List DPDefinition) (r : ρ),
        call dp.dataProvider = .ok r → isEmptyRes r = false →
        binarySpecRun isEmptyRes call (dp :: rest)
          = ([{ dataSourceName := dp.name, response := some r }],
             [{ name := dp.name, arg := (), outcome := .ok r }]))
    ∧ (∀ (ρ : Type) (isEmptyRes : ρ → Bool)
          (call : DataProvider → Except BackendError ρ)
          (dp : DPDefinition) (rest : List DPDefinition) (e : BackendError),
        call dp.dataProvider = .error e →
        binarySpecRun isEmptyRes call (dp :: rest)
          = ((binarySpecRun isEmptyRes call rest).1,
             { name := dp.name, arg := (), outcome := .error e }
               :: (binarySpecRun isEmptyRes call rest).2))) :=
  ⟨rfl, claim4_binary_first_success binaryComposite rfl "1"
    { elementId := "1", linkId := "t", limit := 10, offset := 0, direction := none }
    { text := "q", refElementId := none }⟩

section DictionaryMerge

variable {α : Type}

lemma foldl_concat_init (l : List (CompositeResponse (List α))) :
    ∀ acc : List α,
      l.foldl (fun a r => a ++ r.response.getD []) acc = acc ++ concatPayloads l := by
  induction l with
  | nil => intro acc; simp [concatPayloads]
  | cons r rest ih =>
    intro acc
    have hc : concatPayloads (r :: rest)
        = r.response.getD [] ++ concatPayloads rest := by
      show (r :: rest).foldl (fun a rr => a ++ rr.response.getD []) []
        = r.response.getD [] ++ concatPayloads rest
      rw [List.foldl_cons, ih]
      simp
    rw [List.foldl_cons, ih, hc, List.append_assoc]

lemma concatPayloads_cons (r : CompositeResponse (List α))
    (rest : List (CompositeResponse (List α))) :
    concatPayloads (r :: rest) = r.response.getD [] ++ concatPayloads rest := by
  show (r :: rest).foldl (fun a rr => a ++ rr.response.getD []) []
    = r.response.getD [] ++ concatPayloads rest
  rw [List.foldl_cons, foldl_concat_init]
  simp

lemma dictGet_append (d1 d2 : Dict α) (k : String) :
    dictGet (d1 ++ d2) k =
      match dictGet d1 k with
      | some v => some v
      | none => dictGet d2 k := by
  induction d1 with
  | nil => simp [dictGet]
  | cons x t ih =>
    obtain ⟨k1, v1⟩ := x
    by_cases hk : k = k1
    · simp [dictGet, hk]
    · simp [dictGet, hk, ih]

lemma dictGet_filter_keyne (k0 : String) :
    ∀ (l : Dict α) (k : String), k ≠ k0 →
      dictGet (l.filter (fun y => y.1 ≠ k0)) k = dictGet l k := by
  intro l
  induction l with
  | nil => intro k _; rfl
  | cons x t ih =>
    obtain ⟨k1, v1⟩ := x
    intro k hk
    rw [List.filter_cons]
    by_cases h1 : k1 = k0
    · rw [if_neg (by simp [h1])]
      rw [ih k hk, dictGet, if_neg (fun hh => hk (hh.trans h1))]
    · rw [if_pos (by simp [h1])]
      by_cases hk1 : k = k1
      · rw [dictGet, if_pos hk1, dictGet, if_pos hk1]
      · rw [dictGet, if_neg hk1, dictGet, if_neg hk1, ih k hk]

lemma dictGet_dedupByKey :
    ∀ (l : Dict α) (k : String),
      dictGet (dedupByKey Prod.fst l) k = dictGet l k := by
  intro l
  induction l with
  | nil => intro k; rfl
  | cons x t ih =>
    obtain ⟨k1, v1⟩ := x
    intro k
    by_cases hk : k = k1
    · simp [dedupByKey, dictGet, hk]
    · show dictGet ((k1, v1) :: (dedupByKey Prod.fst t).filter (fun y => y.1 ≠ k1)) k
        = dictGet ((k1, v1) :: t) k
      rw [dictGet, if_neg hk, dictGet, if_neg hk]
      rw [dictGet_filter_keyne k1 _ k hk, ih k]

lemma mergeDictionaries_firstAnswer (responses : List (CompositeResponse (Dict α)))
    (k : String) :
    dictGet (mergeDictionaries responses) k = firstAnswer responses k := by
  rw [mergeDictionaries, dictGet_dedupByKey]
  induction responses with
  | nil => rfl
  | cons r rest ih =>
    rw [concatPayloads_cons, dictGet_append]
    cases hr : r.response with
    | none => simp [firstAnswer, hr, dictGet, ih]
    | some d =>
      cases hd : dictGet d k with
      | none => simp [firstAnswer, hr, hd, ih]
      | some v => simp [firstAnswer, hr, hd]

end DictionaryMerge

/-- C6: for every dictionary-shaped merge (the merge function of
propertyInfo, elementInfo, linkElements and filter is mergeDictionaries),
looking up any key in the merged dictionary yields the payload of the
earliest backend in registration order that produced the key (later
backends' payloads for that key are discarded); in particular, with A
registered before B and both answering id 2 with different payloads, the
merged entry for 2 is A's payload. -/
theorem claim6_first_registered_wins :
    (∀ (α : Type) (responses : List (CompositeResponse (Dict α))) (k : String),
        dictGet (mergeDictionaries responses) k = firstAnswer responses k)
    ∧ (∀ rs : List (CompositeResponse (Dict PropertyModel)),
        mergePropertyInfo rs = mergeDictionaries rs)
    ∧ (∀ rs : List (CompositeResponse (Dict ElementModel)),
        mergeElementInfo rs = mergeDictionaries rs)
    ∧ (∀ rs : List (CompositeResponse (Dict ElementModel)),
        mergeLinkElements rs = mergeDictionaries rs)
    ∧ (∀ rs : List (CompositeResponse (Dict ElementModel)),
        mergeFilter rs = mergeDictionaries rs)
    ∧ dictGet (mergeElementInfo
        [{ dataSourceName := "A", response := some [("2", exElem "2")] },
         { dataSourceName := "B",
           response := some [("2", { id := "2", label := "other", types := [] })] }]) "2"
        = some (exElem "2") :=
  ⟨fun _ responses k => mergeDictionaries_firstAnswer responses k,
   fun _ => rfl, fun _ => rfl, fun _ => rfl, fun _ => rfl, by decide⟩

/-- C10: for every callback, under sequentialFetching the response list
handed to the merge function consists of exactly one entry per invocation
actually made whose call succeeded, in trace (hence registration) order;
a failed or skipped backend contributes no entry at all, and no entry ever
carries an absent payload (no placeholder, unlike the fetchAll path); the
source names of the responses are a sublist of the registered backend
names in registration order. -/
theorem claim10_sequential_success_entries {σ ρ : Type}
    (cb : σ → Option ρ → DPDefinition → Option (Except BackendError ρ) × σ)
    (dps : List DPDefinition) (s : σ) (r : Option ρ) :
    ((queueRun cb dps s r).1
      = (queueRun cb dps s r).2.filterMap (fun inv =>
          match inv.outcome with
          | .ok res => some { dataSourceName := inv.name, response := some res }
          | .error _ => none))
    ∧ (∀ resp ∈ (queueRun cb dps s r).1, resp.response ≠ none)
    ∧ ((queueRun cb dps s r).1.map CompositeResponse.dataSourceName).Sublist
        (dps.map DPDefinition.name) := by
  induction dps generalizing s r with
  | nil =>
    refine ⟨rfl, ?_, ?_⟩
    · intro resp h
      simp [queueRun] at h
    · simp [queueRun]
  | cons dp rest ih =>
    rcases hcb : cb s r dp with ⟨o, s'⟩
    cases o with
    | none =>
      refine ⟨?_, ?_, ?_⟩
      · simp [queueRun, hcb]
      · intro resp h
        simp [queueRun, hcb] at h
      · simp [queueRun, hcb]
    | some out =>
      cases out with
      | ok newR =>
        obtain ⟨ih1, ih2, ih3⟩ := ih s' (some newR)
        refine ⟨?_, ?_, ?_⟩
        · simp only [queueRun, hcb, List.filterMap_cons]
          rw [← ih1]
        · intro resp h
          simp only [queueRun, hcb, List.mem_cons] at h
          rcases h with h | h
          · rw [h]; simp
          · exact ih2 resp h
        · simp only [queueRun, hcb, List.map_cons]
          exact List.Sublist.cons₂ dp.name ih3
      | error e =>
        obtain ⟨ih1, ih2, ih3⟩ := ih s' r
        refine ⟨?_, ?_, ?_⟩
        · simp only [queueRun, hcb, List.filterMap_cons]
          rw [← ih1]
        · intro resp h
          simp only [queueRun, hcb] at h
          exact ih2 resp h
        · simp only [queueRun, hcb]
          exact List.Sublist.cons dp.name ih3

/-- C7 counterexample: with the three concrete registered backends of
dpsAllOk, the fetchAll fan-out (composite.ts line 238) passes the very
caller-supplied params object to every backend, so it is false that each
backend receives its own freshly constructed narrowed copy of the
parameters. -/
theorem claim7_counterexample : ¬ ownFreshCopies (fetchAllParamArgs dpsAllOk) := by
  intro h
  rcases h ParamArg.caller (by decide) with ⟨ids, hids⟩
  cases hids

/-- C7 amended: the orchestrator only rebinds local variables to fresh
filtered arrays and never writes into the caller's params object, but the
caller's object is shared, not copied, except on the narrowable sequential
path: under fetchAll every backend receives the caller's params object
itself; under sequentialFetching the binary operations also pass the
caller's object to every invoked backend; only the narrowable set
operations construct a fresh narrowed params object for every invocation
they make. -/
theorem claim7_param_aliasing_amended :
    (∀ dps : List DPDefinition,
        fetchAllParamArgs dps = List.replicate dps.length ParamArg.caller)
    ∧ (∀ (ρ : Type) (isEmptyRes : ρ → Bool)
          (call : DataProvider → Except BackendError ρ)
          (dps : List DPDefinition),
        ∀ a ∈ binarySeqParamArgs isEmptyRes call dps, a = ParamArg.caller)
    ∧ (∀ (ρ : Type) (resolves : ρ → String → Bool)
          (call : DataProvider → List String → Except BackendError ρ)
          (dps : List DPDefinition) (ids : List String),
        ownFreshCopies (narrowSeqParamArgs resolves call dps ids)) := by
  refine ⟨?_, ?_, ?_⟩
  · intro dps
    induction dps with
    | nil => rfl
    | cons dp rest ih =>
      simp only [List.length_cons, List.replicate_succ]
      show ParamArg.caller :: fetchAllParamArgs rest = _
      rw [ih]
  · intro ρ isEmptyRes call dps a ha
    rcases List.mem_map.mp ha with ⟨inv, _, rfl⟩
    rfl
  · intro ρ resolves call dps ids a ha
    rcases List.mem_map.mp ha with ⟨inv, _, rfl⟩
    exact ⟨inv.arg, rfl⟩

/-- C8 counterexample: the constructor performs no validation at all — the
empty backend list is accepted and yields a fully functional orchestrator
(default fetchAll mode) on which operations resolve with the merge of an
empty response list (classTree returns []), rather than a fatal
configuration error at construction time. -/
theorem claim8_counterexample :
    construct [] none
        = ({ dataProviders := [], mergeMode := .fetchAll } : CompositeDataProvider)
    ∧ CompositeDataProvider.classTree (construct [] none) = [] :=
  ⟨rfl, rfl⟩

/-- Whether a backend list entry is bare (passed without an explicit
name). -/
def isBare : (DataProvider ⊕ DPDefinition) → Bool
  | .inl _ => true
  | .inr _ => false

/-- The number of bare entries of a backend list. -/
def bareCount (l : List (DataProvider ⊕ DPDefinition)) : Nat :=
  (l.filter isBare).length

lemma assignNames_length :
    ∀ (entries : List (DataProvider ⊕ DPDefinition)) (n : Nat),
      (assignNames n entries).length = entries.length := by
  intro entries
  induction entries with
  | nil => intro n; rfl
  | cons e rest ih =>
    intro n
    cases e with
    | inl p => simp [assignNames, ih]
    | inr d => simp [assignNames, ih]

lemma assignNames_explicit :
    ∀ (entries : List (DataProvider ⊕ DPDefinition)) (n j : Nat)
      (d : DPDefinition),
      entries[j]? = some (.inr d) → (assignNames n entries)[j]? = some d := by
  intro entries
  induction entries with
  | nil => intro n j d h; cases h
  | cons e rest ih =>
    intro n j d h
    cases j with
    | zero =>
      simp only [List.getElem?_cons_zero, Option.some.injEq] at h
      subst h
      simp [assignNames]
    | succ j =>
      simp only [List.getElem?_cons_succ] at h
      cases e with
      | inl p =>
        rw [show assignNames n (.inl p :: rest)
            = { name := "dataProvider_" ++ toString n, dataProvider := p }
                :: assignNames (n + 1) rest from rfl,
          List.getElem?_cons_succ]
        exact ih (n + 1) j d h
      | inr d' =>
        rw [show assignNames n (.inr d' :: rest) = d' :: assignNames n rest from rfl,
          List.getElem?_cons_succ]
        exact ih n j d h

lemma assignNames_bare :
    ∀ (entries : List (DataProvider ⊕ DPDefinition)) (n j : Nat)
      (p : DataProvider),
      entries[j]? = some (.inl p) →
      (assignNames n entries)[j]?
        = some { name := "dataProvider_" ++ toString (n + bareCount (entries.take j)),
                 dataProvider := p } := by
  intro entries
  induction entries with
  | nil => intro n j p h; cases h
  | cons e rest ih =>
    intro n j p h
    cases j with
    | zero =>
      simp only [List.getElem?_cons_zero, Option.some.injEq] at h
      subst h
      simp [assignNames, bareCount]
    | succ j =>
      simp only [List.getElem?_cons_succ] at h
      cases e with
      | inl q =>
        rw [show assignNames n (.inl q :: rest)
            = { name := "dataProvider_" ++ toString n, dataProvider := q }
                :: assignNames (n + 1) rest from rfl]
        rw [List.getElem?_cons_succ, ih (n + 1) j p h]
        have hc : n + 1 + bareCount (rest.take j)
            = n + bareCount ((Sum.inl q :: rest).take (j + 1)) := by
          simp only [bareCount, List.take_succ_cons, List.filter_cons, isBare,
            List.length_cons, if_true]
          omega
        rw [hc]
      | inr d' =>
        rw [show assignNames n (.inr d' :: rest) = d' :: assignNames n rest from rfl]
        rw [List.getElem?_cons_succ, ih n j p h]
        have hc : n + bareCount (rest.take j)
            = n + bareCount ((Sum.inr d' :: rest).take (j + 1)) := by
          simp [bareCount, List.take_succ_cons, List.filter_cons, isBare]
        rw [hc]

/-- C8 amended: construction never fails — it is a total function; the
empty list yields the empty registry with the default fetchAll policy and
an invalid policy value cannot be supplied (the selector's type has only
the two policies); bare backends are auto-named dataProvider_1,
dataProvider_2, ... counting only the bare entries in construction order,
explicitly named pairs keep their names and positions; when no policy
selector is given (or the params object carries none) the policy defaults
to fetchAll, and a given selector is used as supplied. -/
theorem claim8_construction_amended :
    (∀ (dps : List (DataProvider ⊕ DPDefinition)) (params : Option ConstructorParams),
        (construct dps params).dataProviders = assignNames 1 dps)
    ∧ (∀ (dps : List (DataProvider ⊕ DPDefinition)) (n : Nat),
        (assignNames n dps).length = dps.length)
    ∧ (∀ (dps : List (DataProvider ⊕ DPDefinition)) (j : Nat) (d : DPDefinition),
        dps[j]? = some (.inr d) → ((construct dps none).dataProviders)[j]? = some d)
    ∧ (∀ (dps : List (DataProvider ⊕ DPDefinition)) (j : Nat) (p : DataProvider),
        dps[j]? = some (.inl p) →
        ((construct dps none).dataProviders)[j]?
          = some { name := "dataProvider_" ++ toString (1 + bareCount (dps.take j)),
                   dataProvider := p })
    ∧ (∀ dps : List (DataProvider ⊕ DPDefinition),
        (construct dps none).mergeMode = .fetchAll)
    ∧ (∀ dps : List (DataProvider ⊕ DPDefinition),
        (construct dps (some { mergeMode := none })).mergeMode = .fetchAll)
    ∧ (∀ (dps : List (DataProvider ⊕ DPDefinition)) (m : MergeMode),
        (construct dps (some { mergeMode := some m })).mergeMode = m) :=
  ⟨fun _ _ => rfl,
   fun dps n => assignNames_length dps n,
   fun dps j d h => assignNames_explicit dps 1 j d h,
   fun dps j p h => assignNames_bare dps 1 j p h,
   fun _ => rfl, fun _ => rfl, fun _ _ => rfl⟩

/-- C9: every read operation of the orchestrator is embedded as a pure
function of the orchestrator value, which is justified by the source: no
method of CompositeDataProvider ever assigns to this.dataProviders or
this.mergeMode (they are written only in the constructor), and all
per-call state of composite.ts (counter, responseList, the narrowed id
locals) is created afresh inside each call; consequently invoking any of
the ten operations twice with identical arguments against unchanged
backends yields identical merged output both times. -/
theorem claim9_idempotent_reads (c : CompositeDataProvider)
    (pids cids ltids eids lids ltids2 : List String) (elementId : String)
    (leParams : LinkElementsParams) (fParams : FilterParams) :
    ((invokeTwice (fun c0 => c0.classTree) c).1
      = (invokeTwice (fun c0 => c0.classTree) c).2)
    ∧ ((invokeTwice (fun c0 => c0.propertyInfo pids) c).1
      = (invokeTwice (fun c0 => c0.propertyInfo pids) c).2)
    ∧ ((invokeTwice (fun c0 => c0.classInfo cids) c).1
      = (invokeTwice (fun c0 => c0.classInfo cids) c).2)
    ∧ ((invokeTwice (fun c0 => c0.linkTypesInfo ltids) c).1
      = (invokeTwice (fun c0 => c0.linkTypesInfo ltids) c).2)
    ∧ ((invokeTwice (fun c0 => c0.linkTypes) c).1
      = (invokeTwice (fun c0 => c0.linkTypes) c).2)
    ∧ ((invokeTwice (fun c0 => c0.elementInfo eids) c).1
      = (invokeTwice (fun c0 => c0.elementInfo eids) c).2)
    ∧ ((invokeTwice (fun c0 => c0.linksInfo lids ltids2) c).1
      = (invokeTwice (fun c0 => c0.linksInfo lids ltids2) c).2)
    ∧ ((invokeTwice (fun c0 => c0.linkTypesOf elementId) c).1
      = (invokeTwice (fun c0 => c0.linkTypesOf elementId) c).2)
    ∧ ((invokeTwice (fun c0 => c0.linkElements leParams) c).1
      = (invokeTwice (fun c0 => c0.linkElements leParams) c).2)
    ∧ ((invokeTwice (fun c0 => c0.filter fParams) c).1
      = (invokeTwice (fun c0 => c0.filter fParams) c).2) :=
  ⟨rfl, rfl, rfl, rfl, rfl, rfl, rfl, rfl, rfl, rfl⟩

end Ontodia
